import Mathlib

/-!
Shallow embedding of `src/server.py` (a Stack Overflow Teams MCP adapter):
the HTML cleaner `clean_html`, the API client `http_get`, and the five tool
handlers.  Network I/O is modelled by passing the outcome of each HTTP
request (a transport failure or a delivered wire response) to the handler as
an explicit oracle argument; everything else is translated line by line from
the source.
-/

namespace SOTeams

/-- A transient Python value as it appears in a parsed JSON response field:
JSON null (Python `None`), an integer, or a string. -/
inductive PyVal where
  | none
  | int (n : Int)
  | str (s : String)
deriving DecidableEq

/-- Python truthiness of a `PyVal`, as used by the conditional expressions on
lines 80 and 107 of `server.py`: `None`, `0`, and the empty string are falsy. -/
def PyVal.truthy : PyVal → Bool
  | PyVal.none => false
  | PyVal.int n => decide (n ≠ 0)
  | PyVal.str s => decide (s ≠ "")

/-- Python string conversion of a `PyVal`, as performed by f-string
interpolation. -/
def PyVal.interp : PyVal → String
  | PyVal.none => "None"
  | PyVal.int n => toString n
  | PyVal.str s => s

/-- One element of the `items` array of an API response.  Only the fields the
handlers consume are modelled; an absent JSON key is `Option.none`.  The
`question_id` field keeps its raw Python value so that truthiness on it is
observable; the other consumed fields are only ever read at a fixed type. -/
structure Item where
  title : Option String := Option.none
  body : Option String := Option.none
  excerpt : Option String := Option.none
  link : Option String := Option.none
  question_id : Option PyVal := Option.none
  score : Option Int := Option.none
  item_type : Option String := Option.none
deriving DecidableEq

/-- A parsed JSON response body.  The handlers only ever read the top level
`items` key; `Option.none` models a body without that key. -/
structure Response where
  items : Option (List Item) := Option.none
deriving DecidableEq

/-- The process configuration read from the environment on lines 10-12 of
`server.py` (values are modelled as the strings the f-strings interpolate). -/
structure Config where
  PAT : String
  TEAM : String
  BASE_URL : String

/-- A query parameter value: the parameter dicts built by the handlers hold
strings and the integer page size. -/
inductive ParamValue where
  | str (s : String)
  | int (n : Int)
deriving DecidableEq

/-- An HTTP response delivered by the network: its status code and its parsed
JSON body (`resp.json()` is modelled by the body arriving already parsed). -/
structure WireResponse where
  status : Nat
  body : Response
deriving DecidableEq

/-- The request `http_get` hands to `httpx`: URL, header list, query
parameters, and timeout in seconds. -/
structure HttpRequest where
  url : String
  headers : List (String × String)
  params : List (String × ParamValue)
  timeout : Nat
deriving DecidableEq

/-- Modelled from the Python standard library function `html.unescape` called
on line 20 of `server.py`, restricted to the semicolon-terminated named
character references for the ampersand, angle bracket, and quote characters;
every other character, including any other ampersand sequence, passes through
unchanged. -/
def unescape : List Char → List Char
  | '&' :: 'a' :: 'm' :: 'p' :: ';' :: rest => '&' :: unescape rest
  | '&' :: 'l' :: 't' :: ';' :: rest => '<' :: unescape rest
  | '&' :: 'g' :: 't' :: ';' :: rest => '>' :: unescape rest
  | '&' :: 'q' :: 'u' :: 'o' :: 't' :: ';' :: rest => '"' :: unescape rest
  | c :: rest => c :: unescape rest
  | [] => []

/-- Fuel-indexed core of Python `str.replace`: replace every non-overlapping
occurrence of `pat` left to right.  Each step consumes at least one character
when `pat` is nonempty, so fuel equal to the length of the scanned list
suffices. -/
def replList : Nat → List Char → List Char → List Char → List Char
  | _, [], _, _ => []
  | 0, s, _, _ => s
  | fuel + 1, c :: rest, pat, rep =>
    if pat ≠ [] ∧ List.isPrefixOf pat (c :: rest) then
      rep ++ replList fuel (List.drop pat.length (c :: rest)) pat rep
    else
      c :: replList fuel rest pat rep

/-- Python `s.replace(pat, rep)` for the nonempty patterns used by
`clean_html` (for an empty pattern this model returns `s` unchanged; the
source never calls `replace` with an empty pattern). -/
def pyReplace (s pat rep : String) : String :=
  String.mk (replList s.data.length s.data pat.data rep.data)

/-- The ASCII whitespace characters stripped by Python `str.strip()`. -/
def isPySpace (c : Char) : Bool :=
  c == ' ' || c == '\t' || c == '\n' || c == '\r' || c == '\x0b' || c == '\x0c'

/-- Python `s.strip()`: drop leading and trailing whitespace. -/
def pyStrip (s : String) : String :=
  String.mk (((s.data.dropWhile isPySpace).reverse.dropWhile isPySpace).reverse)

/-- `clean_html` from lines 18-25 of `server.py`: decode HTML entities, then
replace each of the eight fixed tag strings in order, then strip. -/
def clean_html (html_text : String) : String :=
  let text := String.mk (unescape html_text.data)
  let text := pyReplace (pyReplace text "<p>" "") "</p>" "\n\n"
  let text := pyReplace (pyReplace text "<code>" "`") "</code>" "`"
  let text := pyReplace (pyReplace text "<strong>" "**") "</strong>" "**"
  let text := pyReplace (pyReplace text "<em>" "*") "</em>" "*"
  pyStrip text

/-- The message of the `httpx.HTTPStatusError` raised by
`resp.raise_for_status()` for a status outside the 2xx range. -/
def httpStatusError (status : Nat) : String :=
  "HTTPStatusError: status code " ++ toString status

/-- `http_get` from lines 27-32 of `server.py`.  The network outcome is the
oracle argument `net`: `.error msg` is a transport failure raised inside
`client.get` (DNS, connection, timeout), `.ok wire` is a delivered response.
The function returns the request it issues (so headers and timeout are
observable) together with either the parsed body or the raised error:
`raise_for_status` fails for every status outside 2xx. -/
def http_get (cfg : Config) (url : String) (params : List (String × ParamValue))
    (net : Except String WireResponse) : HttpRequest × Except String Response :=
  (⟨url, [("X-API-Access-Token", cfg.PAT)], params, 10⟩,
    match net with
    | Except.error msg => Except.error msg
    | Except.ok wire =>
      if 200 ≤ wire.status ∧ wire.status ≤ 299 then Except.ok wire.body
      else Except.error (httpStatusError wire.status))

/-- Loop body of `stackoverflow_search_questions` (lines 51-55). -/
def renderQuestionItem (q : Item) : String :=
  "### " ++ clean_html (q.title.getD "") ++ "\n" ++ clean_html (q.body.getD "") ++
    "\n🔗 [View Question](" ++ q.link.getD "#" ++ ")"

/-- Tool 1, `stackoverflow_search_questions` (lines 35-58).  The check
`if not data.get("items")` is falsy exactly when the key is absent or the
list is empty, i.e. when `data.items.getD []` is empty. -/
def stackoverflow_search_questions (cfg : Config) (query : String)
    (net : Except String WireResponse) : String :=
  let params := [("order", ParamValue.str "desc"), ("sort", ParamValue.str "relevance"),
    ("q", ParamValue.str query), ("team", ParamValue.str cfg.TEAM),
    ("pagesize", ParamValue.int 5), ("filter", ParamValue.str "!9_bDE(fI5")]
  let url := cfg.BASE_URL ++ "/search/advanced"
  match (http_get cfg url params net).2 with
  | Except.error e => "HTTP Error: " ++ e
  | Except.ok data =>
    let items := data.items.getD []
    if items.isEmpty then "No relevant questions found."
    else String.intercalate "\n\n" (items.map renderQuestionItem)

/-- The item filter of `stackoverflow_search_answers` (line 73): in Python
`i.get("item_type") == "answer"` is false when the key is absent. -/
def isAnswer (i : Item) : Bool :=
  i.item_type == Option.some "answer"

/-- The constructed link of lines 80 and 107: the team questions URL when the
raw `question_id` value is truthy, the bare fragment otherwise. -/
def constructedLink (cfg : Config) (qid : PyVal) : String :=
  if qid.truthy then
    "https://" ++ cfg.TEAM ++ ".stackoverflowteams.com/c/" ++ cfg.TEAM ++
      "/questions/" ++ qid.interp
  else "#"

/-- Loop body of `stackoverflow_search_answers` (lines 77-81). -/
def renderAnswerItem (cfg : Config) (ans : Item) : String :=
  "**Answer Excerpt:**\n" ++ clean_html (ans.excerpt.getD "") ++
    "\n🔗 [View Answer](" ++ constructedLink cfg (ans.question_id.getD PyVal.none) ++ ")"

/-- Tool 2, `stackoverflow_search_answers` (lines 61-84). -/
def stackoverflow_search_answers (cfg : Config) (query : String)
    (net : Except String WireResponse) : String :=
  let params := [("order", ParamValue.str "desc"), ("sort", ParamValue.str "relevance"),
    ("q", ParamValue.str query), ("team", ParamValue.str cfg.TEAM),
    ("pagesize", ParamValue.int 5)]
  let url := cfg.BASE_URL ++ "/search/excerpts"
  match (http_get cfg url params net).2 with
  | Except.error e => "HTTP Error: " ++ e
  | Except.ok data =>
    let items := (data.items.getD []).filter isAnswer
    if items.isEmpty then "No relevant answers found."
    else String.intercalate "\n\n" (items.map (renderAnswerItem cfg))

/-- Loop body of `stackoverflow_search_excerpts` (lines 102-110). -/
def renderExcerptItem (cfg : Config) (item : Item) : String :=
  "**Type:** " ++ item.item_type.getD "unknown" ++ "\n**Title:** " ++
    clean_html (item.title.getD "") ++ "\n" ++ clean_html (item.excerpt.getD "") ++
    "\n🔗 [View Full Post](" ++ constructedLink cfg (item.question_id.getD PyVal.none) ++ ")"

/-- Tool 3, `stackoverflow_search_excerpts` (lines 87-113). -/
def stackoverflow_search_excerpts (cfg : Config) (query : String)
    (net : Except String WireResponse) : String :=
  let params := [("order", ParamValue.str "desc"), ("sort", ParamValue.str "relevance"),
    ("q", ParamValue.str query), ("team", ParamValue.str cfg.TEAM),
    ("pagesize", ParamValue.int 5)]
  let url := cfg.BASE_URL ++ "/search/excerpts"
  match (http_get cfg url params net).2 with
  | Except.error e => "HTTP Error: " ++ e
  | Except.ok data =>
    let items := data.items.getD []
    if items.isEmpty then "No relevant excerpts found."
    else String.intercalate "\n\n" (items.map (renderExcerptItem cfg))

/-- Loop body of the answers loop of `stackoverflow_fetch_question_by_id`
(lines 137-140). -/
def renderAnswerBlock (ans : Item) : String :=
  "\n**Score:** " ++ toString (ans.score.getD 0) ++ "\n" ++
    clean_html (ans.body.getD "") ++ "\n\n---"

/-- Tool 4, `stackoverflow_fetch_question_by_id` (lines 116-147).  The two
network calls are issued and awaited in source order — question first, then
answers — before the question item list is inspected, so a failure of either
call reaches the handler before the empty-question check runs. -/
def stackoverflow_fetch_question_by_id (cfg : Config) (question_id : String)
    (qnet anet : Except String WireResponse) : String :=
  let q_url := cfg.BASE_URL ++ "/questions/" ++ question_id
  let a_url := cfg.BASE_URL ++ "/questions/" ++ question_id ++ "/answers"
  let fparams := [("team", ParamValue.str cfg.TEAM), ("filter", ParamValue.str "!9_bDE(fI5")]
  match (http_get cfg q_url fparams qnet).2 with
  | Except.error e => "HTTP Error: " ++ e
  | Except.ok q_data =>
    match (http_get cfg a_url fparams anet).2 with
    | Except.error e => "HTTP Error: " ++ e
    | Except.ok a_data =>
      match q_data.items with
      | Option.none => "Question not found."
      | Option.some [] => "Question not found."
      | Option.some (question :: _) =>
        let title := clean_html (question.title.getD "")
        let body := clean_html (question.body.getD "")
        let response := "## " ++ title ++ "\n\n" ++ body ++ "\n\n"
        let answers := a_data.items.getD []
        if answers.isEmpty then response ++ "\n\n_No answers found._"
        else response ++ "\n\n### Top Answers:\n" ++
          String.join (answers.map renderAnswerBlock)

/-- Loop body of `stackoverflow_search_by_tags` (lines 165-168). -/
def renderTagQuestionItem (q : Item) : String :=
  "**" ++ clean_html (q.title.getD "") ++ "**\n🔗 [View Question](" ++
    q.link.getD "#" ++ ")"

/-- Tool 5, `stackoverflow_search_by_tags` (lines 150-171). -/
def stackoverflow_search_by_tags (cfg : Config) (tags : String)
    (net : Except String WireResponse) : String :=
  let params := [("order", ParamValue.str "desc"), ("sort", ParamValue.str "activity"),
    ("tagged", ParamValue.str tags), ("team", ParamValue.str cfg.TEAM),
    ("pagesize", ParamValue.int 5)]
  let url := cfg.BASE_URL ++ "/questions"
  match (http_get cfg url params net).2 with
  | Except.error e => "HTTP Error: " ++ e
  | Except.ok data =>
    let items := data.items.getD []
    if items.isEmpty then "No questions found for the given tags."
    else String.intercalate "\n\n" (items.map renderTagQuestionItem)

/-! ### Shared helper lemmas -/

theorem strData_append (a b : String) : (a ++ b).data = a.data ++ b.data := by
  rcases a with ⟨da⟩
  rcases b with ⟨db⟩
  rfl

@[simp] theorem intercalate_singleton (s a : String) : String.intercalate s [a] = a := rfl

theorem httpError_ne_question_sentinel (e : String) :
    "HTTP Error: " ++ e ≠ "Question not found." := by
  intro h
  have h2 : ("HTTP Error: " ++ e).data.head? = Option.some 'H' := by
    rw [strData_append]
    rfl
  rw [h] at h2
  exact absurd h2 (by decide)

/-- C1: every failure of the API client — a transport error raised inside
`client.get`, or a non-2xx HTTP status raised by `raise_for_status` — is
caught by each of the five tool handlers and rendered as the plain string
"HTTP Error: " followed by the exception message; every handler invocation
returns a string (totality is inherent in the embedding, where each handler
is a total function into `String`). -/
theorem handlers_catch_api_failures (cfg : Config) (q e : String)
    (w wg : WireResponse) (anet : Except String WireResponse)
    (hw : ¬ (200 ≤ w.status ∧ w.status ≤ 299))
    (hg : 200 ≤ wg.status ∧ wg.status ≤ 299) :
    stackoverflow_search_questions cfg q (Except.error e) = "HTTP Error: " ++ e ∧
    stackoverflow_search_answers cfg q (Except.error e) = "HTTP Error: " ++ e ∧
    stackoverflow_search_excerpts cfg q (Except.error e) = "HTTP Error: " ++ e ∧
    stackoverflow_search_by_tags cfg q (Except.error e) = "HTTP Error: " ++ e ∧
    stackoverflow_fetch_question_by_id cfg q (Except.error e) anet = "HTTP Error: " ++ e ∧
    stackoverflow_search_questions cfg q (Except.ok w) =
      "HTTP Error: " ++ httpStatusError w.status ∧
    stackoverflow_search_answers cfg q (Except.ok w) =
      "HTTP Error: " ++ httpStatusError w.status ∧
    stackoverflow_search_excerpts cfg q (Except.ok w) =
      "HTTP Error: " ++ httpStatusError w.status ∧
    stackoverflow_search_by_tags cfg q (Except.ok w) =
      "HTTP Error: " ++ httpStatusError w.status ∧
    stackoverflow_fetch_question_by_id cfg q (Except.ok w) anet =
      "HTTP Error: " ++ httpStatusError w.status ∧
    stackoverflow_fetch_question_by_id cfg q (Except.ok wg) (Except.error e) =
      "HTTP Error: " ++ e ∧
    stackoverflow_fetch_question_by_id cfg q (Except.ok wg) (Except.ok w) =
      "HTTP Error: " ++ httpStatusError w.status := by
  simp only [stackoverflow_search_questions, stackoverflow_search_answers,
    stackoverflow_search_excerpts, stackoverflow_search_by_tags,
    stackoverflow_fetch_question_by_id, http_get, if_neg hw, if_pos hg]
  simp

theorem handlers_catch_api_failures_witness :
    ¬ (200 ≤ 404 ∧ 404 ≤ 299) ∧
    stackoverflow_search_questions ⟨"pat", "team", "https://api"⟩ "q"
      (Except.ok ⟨404, ⟨Option.none⟩⟩) = "HTTP Error: " ++ httpStatusError 404 :=
  ⟨by decide,
    (handlers_catch_api_failures ⟨"pat", "team", "https://api"⟩ "q" "boom"
      ⟨404, ⟨Option.none⟩⟩ ⟨200, ⟨Option.none⟩⟩ (Except.error "x")
      (by decide) (by decide)).2.2.2.2.2.1⟩

/-- C4: when the API call succeeds with a 2xx status but the `items` list is
empty — for `search_answers`, when the list left after its `item_type`
filter is empty — the tool returns exactly its sentinel string verbatim. -/
theorem empty_items_yield_sentinels (cfg : Config) (q : String)
    (w wa w2 : WireResponse) (itemsa : List Item)
    (hw : 200 ≤ w.status ∧ w.status ≤ 299)
    (hwa : 200 ≤ wa.status ∧ wa.status ≤ 299)
    (hw2 : 200 ≤ w2.status ∧ w2.status ≤ 299)
    (hitems : w.body.items = Option.some [])
    (hwaItems : wa.body.items = Option.some itemsa)
    (hfilter : itemsa.filter isAnswer = []) :
    stackoverflow_search_questions cfg q (Except.ok w) = "No relevant questions found." ∧
    stackoverflow_search_answers cfg q (Except.ok wa) = "No relevant answers found." ∧
    stackoverflow_search_excerpts cfg q (Except.ok w) = "No relevant excerpts found." ∧
    stackoverflow_search_by_tags cfg q (Except.ok w) = "No questions found for the given tags." ∧
    stackoverflow_fetch_question_by_id cfg q (Except.ok w) (Except.ok w2) =
      "Question not found." := by
  simp only [stackoverflow_search_questions, stackoverflow_search_answers,
    stackoverflow_search_excerpts, stackoverflow_search_by_tags,
    stackoverflow_fetch_question_by_id, http_get, if_pos hw, if_pos hwa, if_pos hw2,
    hitems, hwaItems, Option.getD_some]
  simp [hfilter]

theorem empty_items_yield_sentinels_witness :
    (200 ≤ 200 ∧ 200 ≤ 299) ∧
    stackoverflow_search_answers ⟨"pat", "team", "https://api"⟩ "q"
      (Except.ok ⟨200, ⟨Option.some [{ item_type := Option.some "question" }]⟩⟩) =
      "No relevant answers found." :=
  ⟨by decide,
    (empty_items_yield_sentinels ⟨"pat", "team", "https://api"⟩ "q"
      ⟨200, ⟨Option.some []⟩⟩ ⟨200, ⟨Option.some [{ item_type := Option.some "question" }]⟩⟩
      ⟨204, ⟨Option.some []⟩⟩ [{ item_type := Option.some "question" }]
      (by decide) (by decide) (by decide) rfl rfl (by decide)).2.1⟩

/-- C5: `search_answers` renders only the items whose `item_type` equals
"answer": its output on any item list equals its output on the sublist of
answer items, and every item kept by the filter has `item_type` equal to
"answer" — an item with any other `item_type`, or with the field absent, is
excluded even when present in the response. -/
theorem search_answers_only_answer_items (cfg : Config) (q : String) (items : List Item) :
    stackoverflow_search_answers cfg q (Except.ok ⟨200, ⟨Option.some items⟩⟩) =
      stackoverflow_search_answers cfg q
        (Except.ok ⟨200, ⟨Option.some (items.filter isAnswer)⟩⟩) ∧
    (items.filter isAnswer).all (fun i => i.item_type == Option.some "answer") = true := by
  constructor
  · have h : ((items.filter isAnswer).filter isAnswer : List Item) = items.filter isAnswer := by
      rw [List.filter_filter]
      simp
    simp [stackoverflow_search_answers, http_get, h]
  · simp only [List.all_eq_true, List.mem_filter, isAnswer]
    exact fun x hx => hx.2

/-- C6: `http_get` attaches the X-API-Access-Token header carrying the
configured token and a 10-second timeout to every request it issues, passes
the given query parameters, returns the parsed JSON body exactly when the
HTTP status is 2xx, fails with an HTTP-status error on every non-2xx status,
and never returns a value for a non-2xx response. -/
theorem http_get_contract (cfg : Config) (url : String)
    (params : List (String × ParamValue)) (e : String) (w wbad : WireResponse)
    (hw : 200 ≤ w.status ∧ w.status ≤ 299)
    (hbad : ¬ (200 ≤ wbad.status ∧ wbad.status ≤ 299)) :
    (http_get cfg url params (Except.ok w)).1 =
      ⟨url, [("X-API-Access-Token", cfg.PAT)], params, 10⟩ ∧
    (http_get cfg url params (Except.error e)).1 =
      ⟨url, [("X-API-Access-Token", cfg.PAT)], params, 10⟩ ∧
    (http_get cfg url params (Except.ok w)).2 = Except.ok w.body ∧
    (http_get cfg url params (Except.ok wbad)).2 =
      Except.error (httpStatusError wbad.status) ∧
    (http_get cfg url params (Except.error e)).2 = Except.error e ∧
    ∀ b, (http_get cfg url params (Except.ok wbad)).2 ≠ Except.ok b := by
  refine ⟨rfl, rfl, ?_, ?_, rfl, ?_⟩
  · simp only [http_get, if_pos hw]
  · simp only [http_get, if_neg hbad]
  · intro b hb
    simp only [http_get, if_neg hbad] at hb
    exact absurd hb (by simp)

theorem http_get_contract_witness :
    (200 ≤ 200 ∧ 200 ≤ 299) ∧
    (http_get ⟨"pat", "team", "https://api"⟩ "https://api/questions" []
      (Except.ok ⟨200, ⟨Option.none⟩⟩)).1 =
      ⟨"https://api/questions", [("X-API-Access-Token", "pat")], [], 10⟩ :=
  ⟨by decide,
    (http_get_contract ⟨"pat", "team", "https://api"⟩ "https://api/questions" [] "x"
      ⟨200, ⟨Option.none⟩⟩ ⟨500, ⟨Option.none⟩⟩ (by decide) (by decide)).1⟩

/-- C2 counterexample: the `link` field is interpolated into the output of
`search_questions` without passing through `clean_html`, so raw HTML in it
reaches the caller: a link value holding an `<em>` tag appears verbatim in
the returned string, although `clean_html` would have rewritten it. -/
theorem raw_link_reaches_output_cx :
    stackoverflow_search_questions ⟨"pat", "team", "https://api"⟩ "q"
      (Except.ok ⟨200, ⟨Option.some [{ title := Option.some "T", body := Option.some "B", link := Option.some "<em>raw</em>" }]⟩⟩) =
      "### T\nB\n🔗 [View Question](<em>raw</em>)" ∧
    "<em>".data <:+: "### T\nB\n🔗 [View Question](<em>raw</em>)".data ∧
    clean_html "<em>raw</em>" = "*raw*" :=
  ⟨by decide, by decide, by decide⟩

/-- C2 amended: in every handler the `title`, `body`, and `excerpt` fields
are passed through `clean_html` before inclusion, while the `link`,
`item_type`, and `question_id` fields are interpolated verbatim, without
cleaning. -/
theorem text_fields_cleaning_amended (cfg : Config) (q t b l e ty : String) :
    stackoverflow_search_questions cfg q
      (Except.ok ⟨200, ⟨Option.some [{ title := Option.some t, body := Option.some b, link := Option.some l }]⟩⟩) =
      "### " ++ clean_html t ++ "\n" ++ clean_html b ++ "\n🔗 [View Question](" ++ l ++ ")" ∧
    stackoverflow_search_answers cfg q
      (Except.ok ⟨200, ⟨Option.some [{ excerpt := Option.some e, item_type := Option.some "answer" }]⟩⟩) =
      "**Answer Excerpt:**\n" ++ clean_html e ++ "\n🔗 [View Answer](" ++ "#" ++ ")" ∧
    stackoverflow_search_excerpts cfg q
      (Except.ok ⟨200, ⟨Option.some [{ title := Option.some t, excerpt := Option.some e, item_type := Option.some ty }]⟩⟩) =
      "**Type:** " ++ ty ++ "\n**Title:** " ++ clean_html t ++ "\n" ++ clean_html e ++
        "\n🔗 [View Full Post](" ++ "#" ++ ")" ∧
    stackoverflow_search_excerpts cfg q
      (Except.ok ⟨200, ⟨Option.some [{ excerpt := Option.some e, question_id := Option.some (PyVal.str "<i>7</i>") }]⟩⟩) =
      "**Type:** " ++ "unknown" ++ "\n**Title:** " ++ clean_html "" ++ "\n" ++ clean_html e ++
        "\n🔗 [View Full Post](" ++
        ("https://" ++ cfg.TEAM ++ ".stackoverflowteams.com/c/" ++ cfg.TEAM ++ "/questions/" ++ "<i>7</i>") ++ ")" ∧
    stackoverflow_search_by_tags cfg q
      (Except.ok ⟨200, ⟨Option.some [{ title := Option.some t, link := Option.some l }]⟩⟩) =
      "**" ++ clean_html t ++ "**\n🔗 [View Question](" ++ l ++ ")" ∧
    stackoverflow_fetch_question_by_id cfg q
      (Except.ok ⟨200, ⟨Option.some [{ title := Option.some t, body := Option.some b }]⟩⟩)
      (Except.ok ⟨200, ⟨Option.some []⟩⟩) =
      "## " ++ clean_html t ++ "\n\n" ++ clean_html b ++ "\n\n" ++ "\n\n_No answers found._" :=
  ⟨rfl, rfl, rfl, rfl, rfl, rfl⟩

/-- C3 counterexample: an unmatched closing tag does not pass through
literally — `clean_html` substitutes every occurrence of the eight tag
strings regardless of pairing, so a lone closing strong tag becomes a double
asterisk. -/
theorem clean_html_unmatched_tag_cx :
    clean_html "</strong>" = "**" ∧ "**" ≠ "</strong>" :=
  ⟨by decide, by decide⟩

/-- C3 amended: `clean_html` decodes HTML entities, then unconditionally
replaces every literal occurrence of the eight fixed tag strings — regardless
of pairing or nesting — and finally trims surrounding whitespace; tags with
attributes and unhandled tags pass through literally, and the two spec
examples hold. -/
theorem clean_html_amended :
    clean_html "<p>Hello <strong>world</strong></p>" = "Hello **world**" ∧
    clean_html "" = "" ∧
    clean_html "&lt;p&gt;" = "" ∧
    clean_html "&amp;" = "&" ∧
    clean_html "<code>a</code>" = "`a`" ∧
    clean_html "<em>e</em>" = "*e*" ∧
    clean_html "  <p>x</p>  " = "x" ∧
    clean_html "<ul><li>a</li></ul>" = "<ul><li>a</li></ul>" ∧
    clean_html "<p class=x>y</p>" = "<p class=x>y" ∧
    clean_html "<strong><strong>x</strong></strong>" = "****x****" := by
  decide

/-- C7 counterexample: an item whose `question_id` is present but equal to
the integer 0 renders its link as the bare fragment, not as the constructed
questions URL the claim asserts for every present `question_id`. -/
theorem constructed_link_present_falsy_cx :
    stackoverflow_search_answers ⟨"pat", "team", "https://api"⟩ "q"
      (Except.ok ⟨200, ⟨Option.some [{ excerpt := Option.some "E", question_id := Option.some (PyVal.int 0), item_type := Option.some "answer" }]⟩⟩) =
      "**Answer Excerpt:**\nE\n🔗 [View Answer](#)" ∧
    "**Answer Excerpt:**\nE\n🔗 [View Answer](#)" ≠
      "**Answer Excerpt:**\nE\n🔗 [View Answer](https://team.stackoverflowteams.com/c/team/questions/0)" :=
  ⟨by decide, by decide⟩

/-- C7 amended: in `search_answers` and `search_excerpts` the rendered link
is the constructed team questions URL when the item carries a truthy
`question_id` value, and the bare fragment when the field is absent (or
falsy). -/
theorem constructed_link_amended (cfg : Config) (q : String) (i j : Item) (v : PyVal)
    (hq : i.question_id = Option.some v) (hv : v.truthy = true)
    (ha : i.item_type = Option.some "answer")
    (hj : j.question_id = Option.none) (hja : j.item_type = Option.some "answer") :
    stackoverflow_search_answers cfg q (Except.ok ⟨200, ⟨Option.some [i]⟩⟩) =
      "**Answer Excerpt:**\n" ++ clean_html (i.excerpt.getD "") ++ "\n🔗 [View Answer](" ++
        ("https://" ++ cfg.TEAM ++ ".stackoverflowteams.com/c/" ++ cfg.TEAM ++ "/questions/" ++ v.interp) ++ ")" ∧
    stackoverflow_search_answers cfg q (Except.ok ⟨200, ⟨Option.some [j]⟩⟩) =
      "**Answer Excerpt:**\n" ++ clean_html (j.excerpt.getD "") ++ "\n🔗 [View Answer](" ++ "#" ++ ")" ∧
    stackoverflow_search_excerpts cfg q (Except.ok ⟨200, ⟨Option.some [i]⟩⟩) =
      "**Type:** " ++ i.item_type.getD "unknown" ++ "\n**Title:** " ++ clean_html (i.title.getD "") ++
        "\n" ++ clean_html (i.excerpt.getD "") ++ "\n🔗 [View Full Post](" ++
        ("https://" ++ cfg.TEAM ++ ".stackoverflowteams.com/c/" ++ cfg.TEAM ++ "/questions/" ++ v.interp) ++ ")" ∧
    stackoverflow_search_excerpts cfg q (Except.ok ⟨200, ⟨Option.some [j]⟩⟩) =
      "**Type:** " ++ j.item_type.getD "unknown" ++ "\n**Title:** " ++ clean_html (j.title.getD "") ++
        "\n" ++ clean_html (j.excerpt.getD "") ++ "\n🔗 [View Full Post](" ++ "#" ++ ")" := by
  simp [stackoverflow_search_answers, stackoverflow_search_excerpts, http_get,
    renderAnswerItem, renderExcerptItem, constructedLink, isAnswer, hq, hv, ha, hj, hja]
  exact ⟨rfl, rfl⟩

theorem constructed_link_amended_witness :
    stackoverflow_search_answers ⟨"pat", "team", "https://api"⟩ "q"
      (Except.ok ⟨200, ⟨Option.some [{ excerpt := Option.some "E", question_id := Option.some (PyVal.int 7), item_type := Option.some "answer" }]⟩⟩) =
      "**Answer Excerpt:**\nE\n🔗 [View Answer](https://team.stackoverflowteams.com/c/team/questions/7)" :=
  (constructed_link_amended ⟨"pat", "team", "https://api"⟩ "q"
    { excerpt := Option.some "E", question_id := Option.some (PyVal.int 7), item_type := Option.some "answer" }
    { excerpt := Option.some "F", item_type := Option.some "answer" }
    (PyVal.int 7) rfl (by decide) rfl rfl rfl).1

/-- C10: in `search_answers` and `search_excerpts` the fragment fallback link
is produced for every falsy `question_id` value, not only when the field is
absent: an item whose `question_id` is the integer 0, the empty string, or
JSON null also renders its link as the bare fragment. -/
theorem falsy_question_id_yields_fragment (cfg : Config) (q : String) (i : Item)
    (ha : i.item_type = Option.some "answer") :
    stackoverflow_search_answers cfg q
      (Except.ok ⟨200, ⟨Option.some [{ i with question_id := Option.some (PyVal.int 0) }]⟩⟩) =
      "**Answer Excerpt:**\n" ++ clean_html (i.excerpt.getD "") ++ "\n🔗 [View Answer](" ++ "#" ++ ")" ∧
    stackoverflow_search_answers cfg q
      (Except.ok ⟨200, ⟨Option.some [{ i with question_id := Option.some (PyVal.str "") }]⟩⟩) =
      "**Answer Excerpt:**\n" ++ clean_html (i.excerpt.getD "") ++ "\n🔗 [View Answer](" ++ "#" ++ ")" ∧
    stackoverflow_search_answers cfg q
      (Except.ok ⟨200, ⟨Option.some [{ i with question_id := Option.some PyVal.none }]⟩⟩) =
      "**Answer Excerpt:**\n" ++ clean_html (i.excerpt.getD "") ++ "\n🔗 [View Answer](" ++ "#" ++ ")" ∧
    stackoverflow_search_excerpts cfg q
      (Except.ok ⟨200, ⟨Option.some [{ i with question_id := Option.some (PyVal.int 0) }]⟩⟩) =
      "**Type:** " ++ i.item_type.getD "unknown" ++ "\n**Title:** " ++ clean_html (i.title.getD "") ++
        "\n" ++ clean_html (i.excerpt.getD "") ++ "\n🔗 [View Full Post](" ++ "#" ++ ")" ∧
    stackoverflow_search_excerpts cfg q
      (Except.ok ⟨200, ⟨Option.some [{ i with question_id := Option.some (PyVal.str "") }]⟩⟩) =
      "**Type:** " ++ i.item_type.getD "unknown" ++ "\n**Title:** " ++ clean_html (i.title.getD "") ++
        "\n" ++ clean_html (i.excerpt.getD "") ++ "\n🔗 [View Full Post](" ++ "#" ++ ")" ∧
    stackoverflow_search_excerpts cfg q
      (Except.ok ⟨200, ⟨Option.some [{ i with question_id := Option.some PyVal.none }]⟩⟩) =
      "**Type:** " ++ i.item_type.getD "unknown" ++ "\n**Title:** " ++ clean_html (i.title.getD "") ++
        "\n" ++ clean_html (i.excerpt.getD "") ++ "\n🔗 [View Full Post](" ++ "#" ++ ")" := by
  simp [stackoverflow_search_answers, stackoverflow_search_excerpts, http_get,
    renderAnswerItem, renderExcerptItem, constructedLink, isAnswer, ha, PyVal.truthy]

theorem falsy_question_id_yields_fragment_witness :
    stackoverflow_search_answers ⟨"pat", "team", "https://api"⟩ "q"
      (Except.ok ⟨200, ⟨Option.some [{ excerpt := Option.some "E", question_id := Option.some (PyVal.int 0), item_type := Option.some "answer" }]⟩⟩) =
      "**Answer Excerpt:**\nE\n🔗 [View Answer](#)" :=
  (falsy_question_id_yields_fragment ⟨"pat", "team", "https://api"⟩ "q"
    { excerpt := Option.some "E", item_type := Option.some "answer" } rfl).1

/-! ### Substring (infix) reasoning helpers -/

theorem isInfix_append_right {α : Type} {P b : List α} (a : List α) (h : P <:+: b) :
    P <:+: a ++ b :=
  h.trans ⟨a, [], by simp⟩

theorem infix_append_cases {α : Type} {P a b : List α} (h : P <:+: a ++ b) :
    P <:+: a ∨ P <:+: b ∨
      ∃ p₁ p₂, P = p₁ ++ p₂ ∧ p₁ ≠ [] ∧ p₂ ≠ [] ∧ p₁ <:+ a ∧ p₂ <+: b := by
  obtain ⟨l, r, hlr⟩ := h
  rw [List.append_assoc] at hlr
  rcases List.append_eq_append_iff.mp hlr with ⟨a2, ha2, hPr⟩ | ⟨c2, _, hb⟩
  · rcases List.append_eq_append_iff.mp hPr with ⟨p2, hp2, _⟩ | ⟨c2, hP, hb⟩
    · exact Or.inl ⟨l, p2, by rw [ha2, hp2, List.append_assoc]⟩
    · rcases eq_or_ne a2 [] with h1 | h1
      · refine Or.inr (Or.inl ⟨[], r, ?_⟩)
        subst h1
        rw [List.nil_append] at hP
        rw [List.nil_append, hP, hb]
      · rcases eq_or_ne c2 [] with h2 | h2
        · refine Or.inl ⟨l, [], ?_⟩
          subst h2
          rw [List.append_nil] at hP
          rw [List.append_nil, hP, ha2]
        · exact Or.inr (Or.inr ⟨a2, c2, hP, h1, h2, ⟨l, ha2.symm⟩, ⟨r, hb.symm⟩⟩)
  · refine Or.inr (Or.inl ⟨c2, r, ?_⟩)
    rw [hb, List.append_assoc]

theorem not_infix_append_of_head {P a b : List Char}
    (ha : ¬ P <:+: a) (hb : ¬ P <:+: b)
    (hhead : ∀ c, b.head? = Option.some c → c ∉ P) : ¬ P <:+: a ++ b := by
  intro h
  rcases infix_append_cases h with h1 | h1 | ⟨p1, p2, hP, hp1, hp2, _, hpre⟩
  · exact ha h1
  · exact hb h1
  · obtain ⟨s, hs⟩ := hpre
    have hpl : p2.head? = Option.some (p2.head hp2) := List.head?_eq_head hp2
    have hc : b.head? = Option.some (p2.head hp2) := by
      rw [← hs, List.head?_append, hpl]
      rfl
    refine hhead _ hc ?_
    rw [hP]
    exact List.mem_append_right p1 (List.head_mem hp2)

theorem not_infix_append_of_getLast {P a b : List Char}
    (ha : ¬ P <:+: a) (hb : ¬ P <:+: b)
    (hlast : ∀ c, a.getLast? = Option.some c → c ∉ P) : ¬ P <:+: a ++ b := by
  intro h
  rcases infix_append_cases h with h1 | h1 | ⟨p1, p2, hP, hp1, hp2, hsuf, _⟩
  · exact ha h1
  · exact hb h1
  · obtain ⟨s, hs⟩ := hsuf
    have hpl : p1.getLast? = Option.some (p1.getLast hp1) := List.getLast?_eq_getLast p1 hp1
    have hc : a.getLast? = Option.some (p1.getLast hp1) := by
      rw [← hs, List.getLast?_append, hpl]
      rfl
    refine hlast _ hc ?_
    rw [hP]
    exact List.mem_append_left p2 (List.getLast_mem hp1)

/-- C8: when the question fetch succeeds with a non-empty item list and the
answers fetch succeeds with an empty list, the rendered result contains the
"_No answers found._" marker and contains no "**Score:**" block, provided the
cleaned question title and body themselves contain no "**Score:**". -/
theorem fetch_no_answers_rendering (cfg : Config) (qid : String)
    (qw aw : WireResponse) (question : Item) (rest : List Item)
    (hq : 200 ≤ qw.status ∧ qw.status ≤ 299)
    (ha : 200 ≤ aw.status ∧ aw.status ≤ 299)
    (hqi : qw.body.items = Option.some (question :: rest))
    (hai : aw.body.items.getD [] = [])
    (hT : ¬ ("**Score:**".data <:+: (clean_html (question.title.getD "")).data))
    (hB : ¬ ("**Score:**".data <:+: (clean_html (question.body.getD "")).data)) :
    "_No answers found._".data <:+:
      (stackoverflow_fetch_question_by_id cfg qid (Except.ok qw) (Except.ok aw)).data ∧
    ¬ ("**Score:**".data <:+:
      (stackoverflow_fetch_question_by_id cfg qid (Except.ok qw) (Except.ok aw)).data) := by
  have hout : stackoverflow_fetch_question_by_id cfg qid (Except.ok qw) (Except.ok aw) =
      "## " ++ clean_html (question.title.getD "") ++ "\n\n" ++
        clean_html (question.body.getD "") ++ "\n\n" ++ "\n\n_No answers found._" := by
    simp [stackoverflow_fetch_question_by_id, http_get, if_pos hq, if_pos ha, hqi, hai]
  have hdata : (stackoverflow_fetch_question_by_id cfg qid (Except.ok qw) (Except.ok aw)).data =
      "## ".data ++ ((clean_html (question.title.getD "")).data ++ ("\n\n".data ++
        ((clean_html (question.body.getD "")).data ++
          ("\n\n".data ++ "\n\n_No answers found._".data)))) := by
    rw [hout]
    simp [strData_append, List.append_assoc]
  rw [hdata]
  constructor
  · refine isInfix_append_right _ (isInfix_append_right _ (isInfix_append_right _
      (isInfix_append_right _ ?_)))
    decide
  · refine not_infix_append_of_getLast (by decide) ?_
      (fun c hc => by injection hc with h2; subst h2; decide)
    refine not_infix_append_of_head hT ?_
      (fun c hc => by injection hc with h2; subst h2; decide)
    refine not_infix_append_of_getLast (by decide) ?_
      (fun c hc => by injection hc with h2; subst h2; decide)
    refine not_infix_append_of_head hB ?_
      (fun c hc => by injection hc with h2; subst h2; decide)
    decide

theorem fetch_no_answers_rendering_witness :
    "_No answers found._".data <:+:
      (stackoverflow_fetch_question_by_id ⟨"pat", "team", "https://api"⟩ "5"
        (Except.ok ⟨200, ⟨Option.some [{ title := Option.some "Hi", body := Option.some "World" }]⟩⟩)
        (Except.ok ⟨200, ⟨Option.some []⟩⟩)).data ∧
    ¬ ("**Score:**".data <:+:
      (stackoverflow_fetch_question_by_id ⟨"pat", "team", "https://api"⟩ "5"
        (Except.ok ⟨200, ⟨Option.some [{ title := Option.some "Hi", body := Option.some "World" }]⟩⟩)
        (Except.ok ⟨200, ⟨Option.some []⟩⟩)).data) :=
  fetch_no_answers_rendering ⟨"pat", "team", "https://api"⟩ "5"
    ⟨200, ⟨Option.some [{ title := Option.some "Hi", body := Option.some "World" }]⟩⟩
    ⟨200, ⟨Option.some []⟩⟩ { title := Option.some "Hi", body := Option.some "World" } []
    (by decide) (by decide) rfl rfl (by decide) (by decide)

/-- C9: `fetch_question_by_id` awaits the answers request before testing
whether the question item list is empty: when the question fetch succeeds
with an empty item list but the answers fetch fails, the handler returns an
"HTTP Error: " string and never "Question not found."; the sentinel is
returned only when both requests succeed with a 2xx status. -/
theorem fetch_awaits_answers_before_check (cfg : Config) (qid e : String)
    (qw : WireResponse)
    (hq : 200 ≤ qw.status ∧ qw.status ≤ 299)
    (_hempty : qw.body.items = Option.some []) :
    stackoverflow_fetch_question_by_id cfg qid (Except.ok qw) (Except.error e) =
      "HTTP Error: " ++ e ∧
    "HTTP Error: " ++ e ≠ "Question not found." ∧
    ∀ qnet anet : Except String WireResponse,
      stackoverflow_fetch_question_by_id cfg qid qnet anet = "Question not found." →
        (∃ w, qnet = Except.ok w ∧ 200 ≤ w.status ∧ w.status ≤ 299) ∧
        (∃ w, anet = Except.ok w ∧ 200 ≤ w.status ∧ w.status ≤ 299) := by
  refine ⟨?_, httpError_ne_question_sentinel e, ?_⟩
  · simp [stackoverflow_fetch_question_by_id, http_get, if_pos hq]
  · intro qnet anet h
    match qnet with
    | Except.error e2 => exact absurd h (httpError_ne_question_sentinel e2)
    | Except.ok w =>
      by_cases h2 : 200 ≤ w.status ∧ w.status ≤ 299
      · match anet with
        | Except.error e3 =>
          simp only [stackoverflow_fetch_question_by_id, http_get, if_pos h2] at h
          exact absurd h (httpError_ne_question_sentinel e3)
        | Except.ok w2 =>
          by_cases h3 : 200 ≤ w2.status ∧ w2.status ≤ 299
          · exact ⟨⟨w, rfl, h2⟩, ⟨w2, rfl, h3⟩⟩
          · simp only [stackoverflow_fetch_question_by_id, http_get, if_pos h2,
              if_neg h3] at h
            exact absurd h (httpError_ne_question_sentinel (httpStatusError w2.status))
      · simp only [stackoverflow_fetch_question_by_id, http_get, if_neg h2] at h
        exact absurd h (httpError_ne_question_sentinel (httpStatusError w.status))

theorem fetch_awaits_answers_before_check_witness :
    stackoverflow_fetch_question_by_id ⟨"pat", "team", "https://api"⟩ "5"
      (Except.ok ⟨200, ⟨Option.some []⟩⟩) (Except.error "timeout") =
      "HTTP Error: " ++ "timeout" :=
  (fetch_awaits_answers_before_check ⟨"pat", "team", "https://api"⟩ "5" "timeout"
    ⟨200, ⟨Option.some []⟩⟩ (by decide) rfl).1

end SOTeams
